import Mathlib

/-!
# Verification of the Sisense build scheduler scripts

Shallow embedding of the repository's four Python scripts:

* `commpeak_orchestrator.py`   — bounded-iteration accumulation loop (Cube1/Cube2)
  followed by two finalization builds (Cube3, Cube4);
* `sisense_build_chain.py`     — parallel batch of fast cubes, then a sequential
  short-circuit chain of big cubes and a final cube;
* `sisense_trigger_build.py`   — standalone one-shot trigger script;
* `sisense_widget_to_telegram.py` — login helper (`sisense_login`).

Network effects are modelled by an oracle environment (`Env`) supplying the
response to each HTTP call in call order, and the observable behaviour of a run
is recorded as a list of `Event`s (build triggered, build waited on / polled,
Telegram notification sent).  Python values appearing in decoded JSON bodies
are modelled by `PyVal`, with Python truthiness and `str()` rendering.
-/

namespace Sisense

/-- A Python value as it can appear in a decoded JSON response body. -/
inductive PyVal where
  | pyNone
  | pyBool (b : Bool)
  | pyInt (n : Int)
  | pyStr (s : String)
deriving DecidableEq

/-- Python truthiness: `None`, `False`, `0` and `""` are falsy. -/
def PyVal.truthy : PyVal → Bool
  | .pyNone => false
  | .pyBool b => b
  | .pyInt n => decide (n ≠ 0)
  | .pyStr s => decide (s ≠ "")

/-- Python `str()` of a value. -/
def PyVal.render : PyVal → String
  | .pyNone => "None"
  | .pyBool true => "True"
  | .pyBool false => "False"
  | .pyInt n => n.repr
  | .pyStr s => s

/-- Python `repr()` of a value, as used inside `str()` of a dict
(strings are quoted; other values render as themselves). -/
def PyVal.pyRepr : PyVal → String
  | .pyStr s => "\x27" ++ s ++ "\x27"
  | v => v.render

/-- A decoded JSON object (Python dict): ordered association list. -/
abbrev PyDict := List (String × PyVal)

/-- Python `dict.get(k)`: the first binding of `k`, if any. -/
def pyGet (d : PyDict) (k : String) : Option PyVal :=
  (d.find? (fun p => p.1 == k)).map (fun p => p.2)

/-- Python `a or b` where `a` is the result of a `dict.get` (absent key = `None`):
a truthy `a` is kept, otherwise the chain falls through to `b`. -/
def orTruthy (a b : Option PyVal) : Option PyVal :=
  match a with
  | some v => if v.truthy then some v else b
  | none => b

/-- Python truthiness of an optional value (`None` when absent). -/
def truthyOpt : Option PyVal → Bool
  | none => false
  | some v => v.truthy

/-- Python `str()` of a dict: `{'k': repr(v), ...}`. -/
def strDict (d : PyDict) : String :=
  "\x7b" ++ String.intercalate ", "
    (d.map (fun p => "\x27" ++ p.1 ++ "\x27: " ++ p.2.pyRepr)) ++ "\x7d"

/-- Python `str.upper()` (ASCII, as every status string in scope is ASCII). -/
def pyUpper (s : String) : String := String.mk (s.data.map Char.toUpper)

/-- Python `pat in text` (substring containment). -/
def containsSub (text pat : String) : Bool := decide (List.IsInfix pat.data text.data)

/-! ## Configuration constants (identical in both orchestrator scripts) -/

/-- `POLL_INTERVAL_SECONDS = 30` — how often to check build status. -/
def POLL_INTERVAL_SECONDS : Nat := 30

/-- `BUILD_TIMEOUT_MINUTES = 60` — safety timeout per build. -/
def BUILD_TIMEOUT_MINUTES : Nat := 60

/-- `SUCCESS_STATUSES = {"SUCCEEDED", "SUCCESS", "DONE", "COMPLETED"}`, defined
identically in `commpeak_orchestrator.py` and `sisense_build_chain.py`. -/
def SUCCESS_STATUSES : List String := ["SUCCEEDED", "SUCCESS", "DONE", "COMPLETED"]

/-- The `final_statuses` set local to `wait_for_build` (identical in both
orchestrator scripts). -/
def final_statuses : List String :=
  ["SUCCEEDED", "SUCCESS", "FAILED", "FAILURE", "CANCELLED", "CANCELED",
   "DONE", "COMPLETED", "ERROR", "TIMEOUT"]

/-- The transient-400 body marker tested by `wait_for_build`. -/
def DSNF_MARKER : String := "Data source not found for build id"

/-! ## `wait_for_build` (identical in both orchestrator scripts)

One poll = one `requests.get` on `/api/v2/builds/{build_id}`.  The outcome of
that single network call, as far as the code can observe it, is either a
transport-level exception or a response carrying an HTTP status code, a body
text, and a decoded JSON body (`none` when `resp.json()` raises, which the
surrounding `try` turns into the same exception path; a decoded non-dict body
also raises at `data.get` inside the same `try`, so it is folded into `none`
as well). -/

/-- The observable result of one status GET. -/
inductive PollResp where
  /-- the GET (or JSON decoding of its 2xx body) raised an exception -/
  | exn
  /-- a response: HTTP status code, body text, decoded JSON dict (if any) -/
  | resp (status_code : Nat) (text : String) (json : Option PyDict)

/-- What one iteration of the polling loop decides from the poll. -/
inductive PollStep where
  /-- `return s` out of the loop -/
  | terminal (s : String)
  /-- fall through to the deadline check and (possibly) the next poll -/
  | cont
deriving DecidableEq

/-- `raw_status = data.get("status") or data.get("state") or "UNKNOWN"`. -/
def raw_status (d : PyDict) : PyVal :=
  match orTruthy (pyGet d "status") (pyGet d "state") with
  | some v => if v.truthy then v else .pyStr "UNKNOWN"
  | none => .pyStr "UNKNOWN"

/-- `status = str(raw_status).upper()`. -/
def norm_status (d : PyDict) : String := pyUpper (raw_status d).render

/-- One iteration of the `while True` body of `wait_for_build`, up to (but not
including) the deadline check: classifies the poll as terminal (with the
returned string) or non-terminal. -/
def pollStep : PollResp → PollStep
  | .exn => .terminal "ERROR_EXCEPTION"
  | .resp code text json =>
    if code = 400 ∧ containsSub text DSNF_MARKER = true then .cont
    else if code = 404 then .cont
    else if 300 ≤ code then .terminal "ERROR_HTTP"
    else
      match json with
      | none => .terminal "ERROR_EXCEPTION"
      | some d =>
        if norm_status d ∈ final_statuses then .terminal (norm_status d) else .cont

/-- The polling loop, driven by a trace of polls; each poll comes with the
value of `time.time()` observed at the deadline check that follows it.
Returns the status string returned by the loop (`none` if the trace ran out
with the loop still going) together with the number of
`time.sleep(POLL_INTERVAL_SECONDS)` calls performed. -/
def waitLoop (deadline : Nat) : List (PollResp × Nat) → Option String × Nat
  | [] => (none, 0)
  | (p, t) :: rest =>
    match pollStep p with
    | .terminal s => (some s, 0)
    | .cont =>
      if t > deadline then (some "TIMEOUT", 0)
      else
        let r := waitLoop deadline rest
        (r.1, r.2 + 1)

/-- `wait_for_build`, entered at time `t0`: the absolute deadline is computed
once at entry as `t0 + BUILD_TIMEOUT_MINUTES * 60`. -/
def wait_for_build (t0 : Nat) (polls : List (PollResp × Nat)) : Option String × Nat :=
  waitLoop (t0 + BUILD_TIMEOUT_MINUTES * 60) polls

/-! ## `trigger_build`

`commpeak_orchestrator.trigger_build` and `sisense_build_chain.trigger_build`
are logically identical: POST `/api/v2/builds`; on HTTP status `>= 300`, or on
any exception raised by the POST or by `resp.json()`, log + notify and
`return None`; otherwise extract the build id from the decoded dict.
(The extraction line `data.get("id") or ...` sits outside the `try`, so a 2xx
body decoding to a non-dict would raise `AttributeError` uncaught; that path
is outside every claim and outside this model, whose `json` field is the
decoded dict when one exists.) -/

/-- The observable result of one trigger POST. -/
inductive TriggerResp where
  /-- the POST (or JSON decoding of its success body) raised an exception -/
  | exn
  /-- a response: HTTP status code and decoded JSON dict (if any) -/
  | resp (status_code : Nat) (json : Option PyDict)

/-- `build_id = data.get("id") or data.get("oid") or data.get("_id") or str(data)`. -/
def extract_build_id (d : PyDict) : PyVal :=
  match orTruthy (pyGet d "id") (orTruthy (pyGet d "oid") (pyGet d "_id")) with
  | some v => if v.truthy then v else .pyStr (strDict d)
  | none => .pyStr (strDict d)

/-- The orchestrators' `trigger_build`: `none` models the Python `return None`
(the `TriggerFailed` marker), `some v` a returned build id. -/
def trigger_build : TriggerResp → Option PyVal
  | .exn => none
  | .resp code json =>
    if 300 ≤ code then none
    else
      match json with
      | none => none
      | some d => some (extract_build_id d)

/-- `sisense_trigger_build.trigger_build` (the standalone script): it calls
`resp.raise_for_status()` without any `try`, so an HTTP 4xx/5xx response, and
any transport exception from the POST itself, propagate to the caller
(`.error`); otherwise the function returns `None` (`.ok`). -/
def standalone_trigger_build : TriggerResp → Except String Unit
  | .exn => .error "requests exception"
  | .resp code _ => if 400 ≤ code ∧ code < 600 then .error "HTTPError" else .ok ()

/-! ## Login (`get_token` / `sisense_login`)

`requests.Response.raise_for_status` raises exactly for `400 <= status < 600`.
A body that `resp.json()` cannot decode is modelled by `json = none` (the
decode error propagates, i.e. the function raises). -/

/-- The observable result of the login POST (a transport exception simply
propagates in both functions, so only received responses are modelled). -/
inductive LoginResp where
  | resp (status_code : Nat) (json : Option PyDict)

/-- Token preference chain of `get_token` (both the commpeak orchestrator's
copy and `sisense_trigger_build.get_token`):
`data.get("token") or data.get("access_token") or data.get("jwt")`. -/
def token_chain (d : PyDict) : Option PyVal :=
  orTruthy (pyGet d "token") (orTruthy (pyGet d "access_token") (pyGet d "jwt"))

/-- Token preference chain of `sisense_widget_to_telegram.sisense_login`:
`data.get("access_token") or data.get("token")` (no `jwt`). -/
def login_chain (d : PyDict) : Option PyVal :=
  orTruthy (pyGet d "access_token") (pyGet d "token")

/-- `get_token` (in `commpeak_orchestrator.py`, `sisense_build_chain.py` and
`sisense_trigger_build.py`): `raise_for_status()`, decode, pick the token by
`token_chain`, raise `RuntimeError` when the result is falsy. -/
def get_token : LoginResp → Except String PyVal
  | .resp code json =>
    if 400 ≤ code ∧ code < 600 then .error "HTTPError"
    else
      match json with
      | none => .error "JSONDecodeError"
      | some d =>
        match token_chain d with
        | some v => if v.truthy then .ok v else .error "RuntimeError: no token found"
        | none => .error "RuntimeError: no token found"

/-- `sisense_login` (in `sisense_widget_to_telegram.py`): same shape but the
token is picked by `login_chain`. -/
def sisense_login : LoginResp → Except String PyVal
  | .resp code json =>
    if 400 ≤ code ∧ code < 600 then .error "HTTPError"
    else
      match json with
      | none => .error "JSONDecodeError"
      | some d =>
        match login_chain d with
        | some v => if v.truthy then .ok v else .error "RuntimeError: token missing"
        | none => .error "RuntimeError: token missing"

/-! ## Run plans (`__main__` blocks of the two orchestrator scripts)

The network is an oracle: the `n`-th trigger POST of the run receives
`Env.trigResp n`, and the `n`-th `wait_for_build` call returns the status
string `Env.waitRes n` (the internal behaviour of `wait_for_build` is modelled
above; at plan level only its returned string matters).  Every run produces a
trace of `Event`s:

* `.trig cubeId`        — `trigger_build` was called for that cube (one POST);
* `.waited cubeId bid`  — `wait_for_build` was called for that cube's build
  (status GETs are issued only inside such a call);
* `.notify cubeId`      — `send_telegram_message` was called with a message
  concerning that cube. -/

/-- A cube definition (`CUBE1` … / `FAST_CUBES` entries …). -/
structure Cube where
  id : String
  name : String
  buildType : String
deriving DecidableEq

/-- Oracle for the network: responses by call index. -/
structure Env where
  trigResp : Nat → TriggerResp
  waitRes : Nat → String

/-- Observable actions of a run. -/
inductive Event where
  | trig (cubeId : String)
  | waited (cubeId : String) (buildId : String)
  | notify (cubeId : String)
deriving DecidableEq

/-- One call to `trigger_build` for a cube: the `n`-th trigger POST of the
run.  On failure `trigger_build` itself sends a Telegram message. -/
def run_trigger (env : Env) (c : Cube) (nT : Nat) : Option PyVal × List Event :=
  match trigger_build (env.trigResp nT) with
  | none => (none, [.trig c.id, .notify c.id])
  | some v => (some v, [.trig c.id])

/-- One call to `wait_for_build` for a cube's build id: the `n`-th wait of the
run; returns the oracle's status string. -/
def run_wait (env : Env) (c : Cube) (bid : PyVal) (nW : Nat) : String × List Event :=
  (env.waitRes nW, [.waited c.id bid.render])

/-! ### `sisense_build_chain.__main__` -/

/-- `FAST_CUBES` (Batch 1). -/
def FAST_CUBES : List Cube :=
  [⟨"c0c863ec-e96d-4456-9a9b-c0f97a8583b9", "SB BID[6,11,18,26,35]", "full"⟩,
   ⟨"e1110242-decf-4fe5-a3b2-fd934c53650d", "SB AI Ret", "full"⟩,
   ⟨"64a0ca4c-a973-403f-ad1f-ee360319c3df", "EQ BID[3,14]", "full"⟩,
   ⟨"641738cb-93ab-46f0-b2f6-351591467464", "MC BID[13,23,38]", "full"⟩,
   ⟨"9ff7407c-0ba8-4399-96f0-4d4504919399", "IR BID[12,21,28,30,37]", "full"⟩,
   ⟨"b9c2f5e9-094e-4aa6-8504-86e7af9fb408", "ICC BID[8,16,24,34]", "full"⟩,
   ⟨"26158bd5-c4e3-4068-95d3-2916a0e81819", "SW BID[10,19,36]", "full"⟩,
   ⟨"65aedf59-57bc-4e00-be57-e11738b38318", "ZI BID[22]", "full"⟩,
   ⟨"0ec7e2c3-06b8-47db-9816-7bfb5766d4b8", "NC BID[33]", "full"⟩,
   ⟨"31d234b0-fdd5-4d6a-b963-3e22ebe54ca7", "SC BID[29]", "full"⟩,
   ⟨"0a920ab7-d9bb-41c1-9b5f-243f3bb6666c", "MM BID[39]", "full"⟩]

/-- `BIG_CUBES[0]` (`dwh_cube` in the script). -/
def dwh_cube : Cube := ⟨"271c0e9b-7ead-486e-9a05-7699273226c3", "DWH&Crm_Sites", "full"⟩

/-- `BIG_CUBES[1]` (`mod_cube` in the script). -/
def mod_cube : Cube := ⟨"c36b8200-2db5-43aa-84aa-ea4843478a8e", "Modernized DWH&Crm_Sites", "full"⟩

/-- `BIG_CUBES` (Batch 2, order is important). -/
def BIG_CUBES : List Cube := [dwh_cube, mod_cube]

/-- `FINAL_CUBE` (Batch 3). -/
def FINAL_CUBE : Cube := ⟨"e808e919-8ea2-420d-8df6-5430566ac1af", "Sites Compare", "full"⟩

/-- Batch 1, first loop: `for cube in FAST_CUBES: ... trigger_build ...;
fast_build_ids.append((cube_id, cube_name, build_id))`.  Returns the events,
the accumulated `fast_build_ids` list, and the next trigger index. -/
def trigPhase (env : Env) : List Cube → Nat → List Event × List (Cube × Option PyVal) × Nat
  | [], nT => ([], [], nT)
  | c :: cs, nT =>
    let (bid, evs) := run_trigger env c nT
    let (evs2, pairs, nT2) := trigPhase env cs (nT + 1)
    (evs ++ evs2, (c, bid) :: pairs, nT2)

/-- Batch 1, second loop: `for cube_id, cube_name, build_id in fast_build_ids:
if not build_id: continue; status = wait_for_build(...); if status not in
SUCCESS_STATUSES: send_telegram_message(...)`. -/
def waitPhase (env : Env) : List (Cube × Option PyVal) → Nat → List Event × Nat
  | [], nW => ([], nW)
  | (c, bid) :: ps, nW =>
    match bid with
    | none => waitPhase env ps nW
    | some v =>
      if v.truthy then
        let (s, evs1) := run_wait env c v nW
        let evs2 := if s ∈ SUCCESS_STATUSES then [] else [Event.notify c.id]
        let (evs3, nW2) := waitPhase env ps (nW + 1)
        (evs1 ++ evs2 ++ evs3, nW2)
      else waitPhase env ps nW

/-- Batch 1: trigger all fast cubes first, then wait on each in turn. -/
def batch1 (env : Env) (nT nW : Nat) : List Event × Nat × Nat :=
  let (evs1, pairs, nT2) := trigPhase env FAST_CUBES nT
  let (evs2, nW2) := waitPhase env pairs nW
  (evs1 ++ evs2, nT2, nW2)

/-- Batches 2 and 3: the sequential short-circuit chain
`dwh_cube` → `mod_cube` → `FINAL_CUBE`.  Every failure (trigger failure or
non-success outcome) sends a Telegram message and skips the rest of the
chain. -/
def batch23 (env : Env) (nT nW : Nat) : List Event × Nat × Nat :=
  let (dwhBid, e1) := run_trigger env dwh_cube nT
  match dwhBid with
  | none => (e1 ++ [.notify dwh_cube.id], nT + 1, nW)
  | some v =>
    if v.truthy then
      let (s1, e2) := run_wait env dwh_cube v nW
      if s1 ∈ SUCCESS_STATUSES then
        let (modBid, e3) := run_trigger env mod_cube (nT + 1)
        match modBid with
        | none => (e1 ++ e2 ++ e3 ++ [.notify mod_cube.id], nT + 2, nW + 1)
        | some w =>
          if w.truthy then
            let (s2, e4) := run_wait env mod_cube w (nW + 1)
            if s2 ∈ SUCCESS_STATUSES then
              let (finBid, e5) := run_trigger env FINAL_CUBE (nT + 2)
              match finBid with
              | none => (e1 ++ e2 ++ e3 ++ e4 ++ e5 ++ [.notify FINAL_CUBE.id], nT + 3, nW + 2)
              | some u =>
                if u.truthy then
                  let (s3, e6) := run_wait env FINAL_CUBE u (nW + 2)
                  let e7 := if s3 ∈ SUCCESS_STATUSES then [] else [Event.notify FINAL_CUBE.id]
                  (e1 ++ e2 ++ e3 ++ e4 ++ e5 ++ e6 ++ e7, nT + 3, nW + 3)
                else (e1 ++ e2 ++ e3 ++ e4 ++ e5 ++ [.notify FINAL_CUBE.id], nT + 3, nW + 2)
            else (e1 ++ e2 ++ e3 ++ e4 ++ [.notify mod_cube.id], nT + 2, nW + 2)
          else (e1 ++ e2 ++ e3 ++ [.notify mod_cube.id], nT + 2, nW + 1)
      else (e1 ++ e2 ++ [.notify dwh_cube.id], nT + 1, nW + 1)
    else (e1 ++ [.notify dwh_cube.id], nT + 1, nW)

/-- The whole `sisense_build_chain.__main__` after login. -/
def chainMain (env : Env) : List Event :=
  let (e1, nT, nW) := batch1 env 0 0
  let (e2, _, _) := batch23 env nT nW
  e1 ++ e2

/-! ### `commpeak_orchestrator.__main__` -/

/-- `CUBE1` ("Commpeak Calls"). -/
def CUBE1 : Cube := ⟨"5ccf6f64-1d56-47dd-b00a-448617603dcf", "Commpeak Calls", "full"⟩

/-- `CUBE2` ("Commpeak", incremental). -/
def CUBE2 : Cube := ⟨"bf49122f-4abf-4b30-8a71-c52e8f613b00", "Commpeak", "by_table"⟩

/-- `CUBE3` ("Commpeak Sites Employees"). -/
def CUBE3 : Cube := ⟨"4d35c342-d629-4047-be5c-259e73ede3c6", "Commpeak Sites Employees", "full"⟩

/-- `CUBE4` ("CallsCombined"). -/
def CUBE4 : Cube := ⟨"3d2750f8-a0d5-4606-a0e2-1dd5de4fd6ec", "CallsCombined", "full"⟩

/-- The `while loops < MAX_LOOPS_PER_RUN` loop, by recursion on the number of
remaining iterations.  Each iteration: trigger `CUBE1` (break on failure),
wait (break + notify on non-success), trigger `CUBE2` (break on failure),
wait (break + notify on non-success), else `successful_c2_runs += 1` and
continue.  Returns `(events, nT, nW, successful_c2_runs, stopped)` where
`stopped` records whether the loop exited by `break` rather than by exhausting
the iteration bound. -/
def commpeakLoop (env : Env) : Nat → Nat → Nat → Nat → List Event × Nat × Nat × Nat × Bool
  | 0, nT, nW, succ => ([], nT, nW, succ, false)
  | fuel + 1, nT, nW, succ =>
    let (bid1, e1) := run_trigger env CUBE1 nT
    match bid1 with
    | none => (e1, nT + 1, nW, succ, true)
    | some v =>
      if v.truthy then
        let (s1, e2) := run_wait env CUBE1 v nW
        if s1 ∈ SUCCESS_STATUSES then
          let (bid2, e3) := run_trigger env CUBE2 (nT + 1)
          match bid2 with
          | none => (e1 ++ e2 ++ e3, nT + 2, nW + 1, succ, true)
          | some w =>
            if w.truthy then
              let (s2, e4) := run_wait env CUBE2 w (nW + 1)
              if s2 ∈ SUCCESS_STATUSES then
                let (evs, nT2, nW2, succ2, st) := commpeakLoop env fuel (nT + 2) (nW + 2) (succ + 1)
                (e1 ++ e2 ++ e3 ++ e4 ++ evs, nT2, nW2, succ2, st)
              else (e1 ++ e2 ++ e3 ++ e4 ++ [.notify CUBE2.id], nT + 2, nW + 2, succ, true)
            else (e1 ++ e2 ++ e3, nT + 2, nW + 1, succ, true)
        else (e1 ++ e2 ++ [.notify CUBE1.id], nT + 1, nW + 1, succ, true)
      else (e1, nT + 1, nW, succ, true)

/-- One finalization step ("After finishing the loop, ALWAYS build CubeN
once"): trigger; if the trigger succeeded, wait and notify on non-success,
else notify about the failed trigger. -/
def finalStep (env : Env) (c : Cube) (nT nW : Nat) : List Event × Nat × Nat :=
  let (bid, e1) := run_trigger env c nT
  match bid with
  | none => (e1 ++ [.notify c.id], nT + 1, nW)
  | some v =>
    if v.truthy then
      let (s, e2) := run_wait env c v nW
      let e3 := if s ∈ SUCCESS_STATUSES then [] else [Event.notify c.id]
      (e1 ++ e2 ++ e3, nT + 1, nW + 1)
    else (e1 ++ [.notify c.id], nT + 1, nW)

/-- The whole `commpeak_orchestrator.__main__` after login: the bounded loop
with iteration cap `maxLoops` (`MAX_LOOPS_PER_RUN`), then `CUBE3` and `CUBE4`
once each.  Returns the event trace and the final `successful_c2_runs`. -/
def commpeakMain (env : Env) (maxLoops : Nat) : List Event × Nat :=
  let (evs, nT, nW, succ, _) := commpeakLoop env maxLoops 0 0 0
  let (e3, nT3, nW3) := finalStep env CUBE3 nT nW
  let (e4, _, _) := finalStep env CUBE4 nT3 nW3
  (evs ++ e3 ++ e4, succ)

/-! ### Observations on event traces -/

/-- Is this event a trigger for the given cube id? -/
def isTrigFor (cid : String) : Event → Bool
  | .trig i => i == cid
  | _ => false

/-- Number of trigger POSTs issued for the given cube id. -/
def countTrig (cid : String) (evs : List Event) : Nat :=
  (evs.filter (isTrigFor cid)).length

/-- The cube ids of all triggers, in issue order. -/
def trigIds (evs : List Event) : List String :=
  evs.filterMap (fun e => match e with | .trig i => some i | _ => none)

/-- The cube ids of all waits, in issue order. -/
def waitCubeIds (evs : List Event) : List String :=
  evs.filterMap (fun e => match e with | .waited i _ => some i | _ => none)

/-- Number of `wait_for_build` calls (hence of poll phases) for the cube id. -/
def countWait (cid : String) (evs : List Event) : Nat :=
  ((waitCubeIds evs).filter (fun i => i == cid)).length

/-- Triggers restricted to the two Commpeak finalization cubes. -/
def finalizationTrigs (evs : List Event) : List String :=
  (trigIds evs).filter (fun i => i == CUBE3.id || i == CUBE4.id)

/-! ## Helper lemmas -/

/-- For a 2xx response none of the three HTTP guards of `wait_for_build`
fires, so the loop body proceeds to JSON decoding and status matching. -/
theorem pollStep_lt300 (code : Nat) (text : String) (json : Option PyDict)
    (h : code < 300) :
    pollStep (.resp code text json) =
      (match json with
       | none => .terminal "ERROR_EXCEPTION"
       | some d =>
         if norm_status d ∈ final_statuses then .terminal (norm_status d) else .cont) := by
  have h1 : ¬(code = 400 ∧ containsSub text DSNF_MARKER = true) := by
    rintro ⟨rfl, -⟩; omega
  have h2 : ¬ code = 404 := by omega
  have h3 : ¬ 300 ≤ code := by omega
  simp only [pollStep, if_neg h1, if_neg h2, if_neg h3]

/-- `norm_status` of a dict whose `status` key holds a non-empty string. -/
theorem norm_status_of_str (s : String) (hs : s ≠ "") :
    norm_status [("status", .pyStr s)] = pyUpper s := by
  simp [norm_status, raw_status, orTruthy, pyGet, PyVal.truthy, hs, PyVal.render]

/-! ## Claims -/

/-- **C1.** For every 2xx poll response in `wait_for_build`, the loop treats
the poll as terminal exactly when the upper-cased status string — read from
`status`, else `state`, defaulting to `UNKNOWN` — lies in the fixed
ten-element vocabulary; in that case it returns the normalized status, and
otherwise it classifies the poll as non-terminal (still running).  The match
is case-insensitive (only the upper-cased image of the raw status matters),
a dict carrying neither field normalizes to `UNKNOWN` (not terminal), and of
the vocabulary exactly `SUCCEEDED`, `SUCCESS`, `DONE`, `COMPLETED` lie in the
`SUCCESS_STATUSES` set that every caller uses to classify success. -/
theorem C1_terminal_vocabulary :
    (∀ code text d, code < 300 →
       (pollStep (.resp code text (some d)) = .terminal (norm_status d) ↔
          norm_status d ∈ final_statuses)
       ∧ (norm_status d ∉ final_statuses → pollStep (.resp code text (some d)) = .cont))
    ∧ final_statuses = ["SUCCEEDED", "SUCCESS", "FAILED", "FAILURE", "CANCELLED",
        "CANCELED", "DONE", "COMPLETED", "ERROR", "TIMEOUT"]
    ∧ (∀ d, pyGet d "status" = none → pyGet d "state" = none → norm_status d = "UNKNOWN")
    ∧ "UNKNOWN" ∉ final_statuses
    ∧ (∀ s, s ≠ "" → norm_status [("status", .pyStr s)] = pyUpper s)
    ∧ (∀ code text s1 s2, s1 ≠ "" → s2 ≠ "" → pyUpper s1 = pyUpper s2 →
         pollStep (.resp code text (some [("status", .pyStr s1)])) =
           pollStep (.resp code text (some [("status", .pyStr s2)])))
    ∧ norm_status [("status", .pyStr "succeeded")] = "SUCCEEDED"
    ∧ norm_status [("status", .pyStr "Succeeded")] = "SUCCEEDED"
    ∧ (∀ s ∈ final_statuses, s ∈ SUCCESS_STATUSES ↔
         s ∈ (["SUCCEEDED", "SUCCESS", "DONE", "COMPLETED"] : List String)) := by
  refine ⟨?_, rfl, ?_, by decide, norm_status_of_str, ?_, by decide, by decide, by decide⟩
  · intro code text d h
    rw [pollStep_lt300 code text (some d) h]
    constructor
    · by_cases hm : norm_status d ∈ final_statuses
      · simp [hm]
      · simp only [if_neg hm]
        exact ⟨fun hc => absurd hc (by simp), fun hc => absurd hc hm⟩
    · intro hm
      simp [hm]
  · intro d h1 h2
    simp only [norm_status, raw_status, orTruthy, h1, h2, PyVal.render]
    decide
  · intro code text s1 s2 h1 h2 hup
    by_cases h : code < 300
    · rw [pollStep_lt300 code text _ h, pollStep_lt300 code text _ h]
      dsimp only
      rw [norm_status_of_str s1 h1, norm_status_of_str s2 h2, hup]
    · have hge : 300 ≤ code := by omega
      simp only [pollStep]
      by_cases hA : code = 400 ∧ containsSub text DSNF_MARKER = true
      · rw [if_pos hA, if_pos hA]
      · rw [if_neg hA, if_neg hA]
        by_cases h404 : code = 404
        · rw [if_pos h404, if_pos h404]
        · rw [if_neg h404, if_neg h404, if_pos hge, if_pos hge]

/-- **C1 witness**: at HTTP 200 with body `{"status": "building"}` the poll is
non-terminal, and with `{"status": "succeeded"}` it is terminal. -/
theorem C1_terminal_vocabulary_witness :
    (200 : Nat) < 300 ∧
    pollStep (.resp 200 "" (some [("status", .pyStr "building")])) = .cont ∧
    pollStep (.resp 200 "" (some [("status", .pyStr "succeeded")])) =
      .terminal "SUCCEEDED" := by
  refine ⟨by decide, ?_, ?_⟩
  · exact (C1_terminal_vocabulary.1 200 "" [("status", .pyStr "building")]
      (by decide)).2 (by decide)
  · have h := (C1_terminal_vocabulary.1 200 "" [("status", .pyStr "succeeded")]
      (by decide)).1.2 (by decide)
    simpa using h

/-- **C2.** In `wait_for_build`: a 400 response whose body contains
`"Data source not found for build id"` is never terminal, a 404 response is
never terminal (both continue polling), every other response with status
`>= 300` is terminal with `"ERROR_HTTP"`, and a transport-level exception is
terminal with `"ERROR_EXCEPTION"`.  Terminal polls end the loop at once —
the rest of the trace is never consumed and no retry happens — while a
non-terminal poll within the deadline proceeds to the next poll. -/
theorem C2_transient_and_fatal_polls :
    (∀ text json, containsSub text DSNF_MARKER = true →
       pollStep (.resp 400 text json) = .cont)
    ∧ (∀ text json, pollStep (.resp 404 text json) = .cont)
    ∧ (∀ code text json, 300 ≤ code → code ≠ 404 →
         ¬(code = 400 ∧ containsSub text DSNF_MARKER = true) →
         pollStep (.resp code text json) = .terminal "ERROR_HTTP")
    ∧ pollStep .exn = .terminal "ERROR_EXCEPTION"
    ∧ (∀ deadline p t rest s, pollStep p = .terminal s →
         waitLoop deadline ((p, t) :: rest) = (some s, 0))
    ∧ (∀ deadline p t rest, pollStep p = .cont → ¬ t > deadline →
         waitLoop deadline ((p, t) :: rest) =
           ((waitLoop deadline rest).1, (waitLoop deadline rest).2 + 1)) := by
  refine ⟨?_, ?_, ?_, rfl, ?_, ?_⟩
  · intro text json hsub
    simp [pollStep, hsub]
  · intro text json
    have h4 : ¬((404 : Nat) = 400 ∧ containsSub text DSNF_MARKER = true) := by
      rintro ⟨h, -⟩; omega
    simp [pollStep, h4]
  · intro code text json hge h404 hA
    simp [pollStep, hA, h404, hge]
  · intro deadline p t rest s hp
    simp [waitLoop, hp]
  · intro deadline p t rest hp ht
    simp [waitLoop, hp, ht]

/-- **C2 witness**: with the deadline at 1000, a transient 400 at time 10 is
retried (the following poll is consumed), while a plain 500 ends the loop at
once with `ERROR_HTTP`. -/
theorem C2_transient_and_fatal_polls_witness :
    containsSub ("error: " ++ DSNF_MARKER) DSNF_MARKER = true ∧
    waitLoop 1000 [(.resp 400 ("error: " ++ DSNF_MARKER) none, 10),
                   (.resp 500 "boom" none, 20)] = (some "ERROR_HTTP", 1) := by
  constructor
  · decide
  · rw [C2_transient_and_fatal_polls.2.2.2.2.2 1000 _ 10 _
      (C2_transient_and_fatal_polls.1 ("error: " ++ DSNF_MARKER) none (by decide))
      (by decide)]
    rw [C2_transient_and_fatal_polls.2.2.2.2.1 1000 _ 20 []
      "ERROR_HTTP" (C2_transient_and_fatal_polls.2.2.1 500 "boom" none
        (by decide) (by decide) (by decide))]

/-- **C3.** `wait_for_build` computes its absolute deadline once at entry, as
entry time plus the timeout (`BUILD_TIMEOUT_MINUTES = 60` minutes), and its
fixed sleep interval is `POLL_INTERVAL_SECONDS = 30` seconds; whenever a
non-terminal poll is followed by a clock reading past the deadline, the loop
returns `"TIMEOUT"` immediately — zero further sleeps, and the remainder of
the poll trace (arbitrary here) is never consumed, i.e. no further network
calls are made. -/
theorem C3_deadline_and_interval :
    POLL_INTERVAL_SECONDS = 30
    ∧ BUILD_TIMEOUT_MINUTES = 60
    ∧ (∀ t0 polls, wait_for_build t0 polls = waitLoop (t0 + BUILD_TIMEOUT_MINUTES * 60) polls)
    ∧ (∀ deadline p t rest, pollStep p = .cont → t > deadline →
         waitLoop deadline ((p, t) :: rest) = (some "TIMEOUT", 0)) := by
  refine ⟨rfl, rfl, fun _ _ => rfl, ?_⟩
  intro deadline p t rest hp ht
  simp [waitLoop, hp, ht]

/-- **C3 witness**: entering at time 0 (deadline 3600), a non-terminal poll
followed by clock reading 3601 returns `TIMEOUT` without consuming the next
poll. -/
theorem C3_deadline_and_interval_witness :
    pollStep (.resp 404 "" none) = .cont ∧
    (3601 : Nat) > 0 + BUILD_TIMEOUT_MINUTES * 60 ∧
    wait_for_build 0 [(.resp 404 "" none, 3601), (.exn, 3602)] = (some "TIMEOUT", 0) := by
  refine ⟨by decide, by decide, ?_⟩
  rw [C3_deadline_and_interval.2.2.1 0 _]
  exact C3_deadline_and_interval.2.2.2 (0 + BUILD_TIMEOUT_MINUTES * 60)
    (.resp 404 "" none) 3601 [(.exn, 3602)] (by decide) (by decide)

/-- **C10** (implicit). A poll whose HTTP status is below 300 but whose body
cannot be decoded as JSON is terminal immediately with the exception-variant
`"ERROR_EXCEPTION"` — the `JSONDecodeError` is caught by the same `except`
handler as transport failures, so a malformed 2xx body is not treated as
still-running. -/
theorem C10_malformed_2xx_terminal :
    ∀ code text, code < 300 →
      pollStep (.resp code text none) = .terminal "ERROR_EXCEPTION" := by
  intro code text h
  rw [pollStep_lt300 code text none h]

/-- **C10 witness**: HTTP 200 with an undecodable body is terminal. -/
theorem C10_malformed_2xx_terminal_witness :
    (200 : Nat) < 300 ∧
    pollStep (.resp 200 "<html>" none) = .terminal "ERROR_EXCEPTION" :=
  ⟨by decide, C10_malformed_2xx_terminal 200 "<html>" (by decide)⟩

/-! ### Non-emptiness of rendered Python values (for C9) -/

/-- `Nat.toDigits` never produces the empty digit list. -/
theorem toDigits_ne_nil (b n : Nat) : Nat.toDigits b n ≠ [] := by
  have h := Nat.toDigitsCore_lens_eq b n (n / b) ((n % b).digitChar) []
  simp only [Nat.toDigits, Nat.toDigitsCore]
  split
  · simp
  · intro hnil
    have h2 := congrArg List.length hnil
    rw [h] at h2
    simp at h2

/-- The decimal rendering of a natural number is never empty. -/
theorem Nat_repr_ne_empty (n : Nat) : Nat.repr n ≠ "" := by
  intro h
  have h2 := congrArg String.data h
  simp only [Nat.repr, List.asString] at h2
  exact toDigits_ne_nil 10 n (by simpa using h2)

/-- The decimal rendering of an integer is never empty. -/
theorem Int_repr_ne_empty (n : Int) : Int.repr n ≠ "" := by
  cases n with
  | ofNat m => exact Nat_repr_ne_empty m
  | negSucc m =>
    intro h
    have h2 := congrArg String.length h
    rw [Int.repr, String.length_append] at h2
    have e1 : ("-" : String).length = 1 := by decide
    have e2 : ("" : String).length = 0 := by decide
    omega

/-- A truthy Python value renders (`str()`) to a non-empty string. -/
theorem truthy_render_ne_empty (v : PyVal) (h : v.truthy = true) : v.render ≠ "" := by
  cases v with
  | pyNone => simp [PyVal.truthy] at h
  | pyBool b =>
    cases b
    · simp [PyVal.truthy] at h
    · simp only [PyVal.render]; decide
  | pyInt n => exact Int_repr_ne_empty n
  | pyStr s =>
    simp only [PyVal.truthy, decide_eq_true_eq] at h
    simpa [PyVal.render] using h

/-- `str()` of a dict always starts with a brace, so it is never empty. -/
theorem strDict_ne_empty (d : PyDict) : strDict d ≠ "" := by
  intro h
  have h2 := congrArg String.length h
  simp only [strDict, String.length_append] at h2
  have e1 : ("\x7b" : String).length = 1 := by decide
  have e2 : ("" : String).length = 0 := by decide
  omega

/-- The extracted build id is always truthy: either a truthy identifier field
was picked, or the non-empty `str(data)` fallback. -/
theorem extract_build_id_truthy (d : PyDict) : (extract_build_id d).truthy = true := by
  have hfb : (PyVal.pyStr (strDict d)).truthy = true := by
    simp only [PyVal.truthy, decide_eq_true_eq]
    exact strDict_ne_empty d
  unfold extract_build_id
  split
  · rename_i v _
    by_cases hv : v.truthy = true
    · rw [if_pos hv]; exact hv
    · rw [if_neg hv]; exact hfb
  · exact hfb

/-! ### C9 -/

/-- **C9.** On a successful trigger response (HTTP status below 300, decoded
JSON dict `d`), the build handle is `data.get("id") or data.get("oid") or
data.get("_id") or str(data)` — the three identifier fields in that order,
then the whole decoded body rendered as a string — and this handle is always
truthy and renders to a non-empty string.  When the 2xx body cannot be
decoded, the call is a parse failure and returns the `TriggerFailed` marker. -/
theorem C9_handle_extraction :
    (∀ code d, code < 300 →
       trigger_build (.resp code (some d)) = some (extract_build_id d))
    ∧ (∀ d, extract_build_id d =
        match orTruthy (pyGet d "id") (orTruthy (pyGet d "oid") (pyGet d "_id")) with
        | some v => if v.truthy then v else .pyStr (strDict d)
        | none => .pyStr (strDict d))
    ∧ (∀ d, (extract_build_id d).truthy = true)
    ∧ (∀ d, (extract_build_id d).render ≠ "")
    ∧ (∀ code, code < 300 → trigger_build (.resp code none) = none) := by
  refine ⟨?_, fun d => rfl, extract_build_id_truthy, ?_, ?_⟩
  · intro code d h
    simp [trigger_build, Nat.not_le.mpr h]
  · intro d
    exact truthy_render_ne_empty _ (extract_build_id_truthy d)
  · intro code h
    simp [trigger_build, Nat.not_le.mpr h]

/-- **C9 witness**: a 201 response `{"oid": "b42"}` yields handle `"b42"`
(the `id` field is absent, `oid` is next in line), and a 200 response with an
empty dict falls back to `str(data) = "{}"`. -/
theorem C9_handle_extraction_witness :
    (201 : Nat) < 300 ∧
    trigger_build (.resp 201 (some [("oid", .pyStr "b42")])) = some (.pyStr "b42") ∧
    trigger_build (.resp 200 (some [])) = some (.pyStr "\x7b\x7d") := by
  refine ⟨by decide, ?_, ?_⟩
  · rw [C9_handle_extraction.1 201 [("oid", .pyStr "b42")] (by decide)]
    decide
  · rw [C9_handle_extraction.1 200 [] (by decide)]
    decide

/-! ### C8 (corrected) -/

/-- **C8 counterexample.** The claim states that both `get_token` and
`sisense_login` recognize the token fields in the fixed preference order
`token`, `access_token`, `jwt`.  But `sisense_login` checks
`data.get("access_token") or data.get("token")` only: on the concrete 200
response `{"jwt": "tok123"}` — which carries a recognized token field per the
claim — `get_token` succeeds with `"tok123"` while `sisense_login` raises. -/
theorem C8_preference_order_counterexample :
    get_token (.resp 200 (some [("jwt", .pyStr "tok123")])) = .ok (.pyStr "tok123")
    ∧ sisense_login (.resp 200 (some [("jwt", .pyStr "tok123")])) =
        .error "RuntimeError: token missing" := by
  constructor <;> rfl

/-- **C8 (amended).** `get_token` (present identically in three scripts)
raises exactly when the login response has a 4xx/5xx status
(`raise_for_status`), an undecodable body, or no truthy token under the
preference order `token`, then `access_token`, then `jwt`; `sisense_login`
(in `sisense_widget_to_telegram.py`) has the same raise conditions but its
preference order is `access_token`, then `token`, and it does not recognize
`jwt` at all.  In both, the failure propagates to the caller (fatal to the
run — there is no retry and no fallback credential in either function). -/
theorem C8_amended_login_contract :
    (∀ code json, 400 ≤ code → code < 600 →
       get_token (.resp code json) = .error "HTTPError"
       ∧ sisense_login (.resp code json) = .error "HTTPError")
    ∧ (∀ code, ¬(400 ≤ code ∧ code < 600) →
         get_token (.resp code none) = .error "JSONDecodeError"
         ∧ sisense_login (.resp code none) = .error "JSONDecodeError")
    ∧ (∀ code d, ¬(400 ≤ code ∧ code < 600) →
         get_token (.resp code (some d)) =
           (match token_chain d with
            | some v => if v.truthy then .ok v else .error "RuntimeError: no token found"
            | none => .error "RuntimeError: no token found")
         ∧ sisense_login (.resp code (some d)) =
           (match login_chain d with
            | some v => if v.truthy then .ok v else .error "RuntimeError: token missing"
            | none => .error "RuntimeError: token missing"))
    ∧ (∀ d v, pyGet d "token" = some v → v.truthy = true → token_chain d = some v)
    ∧ (∀ d, pyGet d "token" = none → pyGet d "access_token" = none →
         token_chain d = pyGet d "jwt")
    ∧ (∀ d v, pyGet d "access_token" = some v → v.truthy = true → login_chain d = some v)
    ∧ (∀ d, pyGet d "access_token" = none → login_chain d = pyGet d "token") := by
  refine ⟨?_, ?_, ?_, ?_, ?_, ?_, ?_⟩
  · intro code json h4 h6
    exact ⟨by simp [get_token, h4, h6], by simp [sisense_login, h4, h6]⟩
  · intro code h
    exact ⟨by simp [get_token, h], by simp [sisense_login, h]⟩
  · intro code d h
    exact ⟨by simp [get_token, h], by simp [sisense_login, h]⟩
  · intro d v hv ht
    simp [token_chain, orTruthy, hv, ht]
  · intro d h1 h2
    simp [token_chain, orTruthy, h1, h2]
  · intro d v hv ht
    simp [login_chain, orTruthy, hv, ht]
  · intro d h
    simp [login_chain, orTruthy, h]

/-- **C8 (amended) witness**: a 401 response raises in both functions, and on
`{"token": "a", "access_token": "b"}` `get_token` picks `"a"` while
`sisense_login` picks `"b"` (their preference orders differ). -/
theorem C8_amended_login_contract_witness :
    (400 ≤ 401 ∧ 401 < 600) ∧
    get_token (.resp 401 (some [])) = .error "HTTPError" ∧
    get_token (.resp 200 (some [("token", .pyStr "a"), ("access_token", .pyStr "b")])) =
      .ok (.pyStr "a") ∧
    sisense_login (.resp 200 (some [("token", .pyStr "a"), ("access_token", .pyStr "b")])) =
      .ok (.pyStr "b") := by
  refine ⟨by decide, (C8_amended_login_contract.1 401 (some []) (by decide) (by decide)).1,
    ?_, ?_⟩
  · rw [(C8_amended_login_contract.2.2.1 200
      [("token", .pyStr "a"), ("access_token", .pyStr "b")] (by decide)).1]
    exact rfl
  · rw [(C8_amended_login_contract.2.2.1 200
      [("token", .pyStr "a"), ("access_token", .pyStr "b")] (by decide)).2]
    exact rfl

/-! ### List-of-events helper lemmas -/

@[simp] theorem trigIds_append (a b : List Event) :
    trigIds (a ++ b) = trigIds a ++ trigIds b := by
  simp [trigIds, List.filterMap_append]

@[simp] theorem waitCubeIds_append (a b : List Event) :
    waitCubeIds (a ++ b) = waitCubeIds a ++ waitCubeIds b := by
  simp [waitCubeIds, List.filterMap_append]

@[simp] theorem trigIds_nil : trigIds [] = [] := rfl

@[simp] theorem waitCubeIds_nil : waitCubeIds [] = [] := rfl

@[simp] theorem trigIds_cons_trig (i : String) (evs : List Event) :
    trigIds (Event.trig i :: evs) = i :: trigIds evs := rfl

@[simp] theorem trigIds_cons_waited (i b : String) (evs : List Event) :
    trigIds (Event.waited i b :: evs) = trigIds evs := rfl

@[simp] theorem trigIds_cons_notify (i : String) (evs : List Event) :
    trigIds (Event.notify i :: evs) = trigIds evs := rfl

@[simp] theorem waitCubeIds_cons_trig (i : String) (evs : List Event) :
    waitCubeIds (Event.trig i :: evs) = waitCubeIds evs := rfl

@[simp] theorem waitCubeIds_cons_waited (i b : String) (evs : List Event) :
    waitCubeIds (Event.waited i b :: evs) = i :: waitCubeIds evs := rfl

@[simp] theorem waitCubeIds_cons_notify (i : String) (evs : List Event) :
    waitCubeIds (Event.notify i :: evs) = waitCubeIds evs := rfl

@[simp] theorem countTrig_append (cid : String) (a b : List Event) :
    countTrig cid (a ++ b) = countTrig cid a + countTrig cid b := by
  simp [countTrig, List.filter_append]

@[simp] theorem countTrig_nil (cid : String) : countTrig cid [] = 0 := rfl

@[simp] theorem countTrig_cons_trig (cid i : String) (evs : List Event) :
    countTrig cid (Event.trig i :: evs) =
      (if (i == cid) = true then 1 else 0) + countTrig cid evs := by
  simp only [countTrig, List.filter_cons, isTrigFor]
  by_cases h : (i == cid) = true <;> simp [h, Nat.add_comm]

@[simp] theorem countTrig_cons_waited (cid i b : String) (evs : List Event) :
    countTrig cid (Event.waited i b :: evs) = countTrig cid evs := by
  simp [countTrig, List.filter_cons, isTrigFor]

@[simp] theorem countTrig_cons_notify (cid i : String) (evs : List Event) :
    countTrig cid (Event.notify i :: evs) = countTrig cid evs := by
  simp [countTrig, List.filter_cons, isTrigFor]

theorem countWait_append (cid : String) (a b : List Event) :
    countWait cid (a ++ b) = countWait cid a + countWait cid b := by
  simp [countWait, waitCubeIds_append, List.filter_append]

theorem finalizationTrigs_append (a b : List Event) :
    finalizationTrigs (a ++ b) = finalizationTrigs a ++ finalizationTrigs b := by
  simp [finalizationTrigs, trigIds_append, List.filter_append]

/-! ### C4 (corrected) -/

/-- **C4 counterexample.** The claim says a failing trigger POST never raises
an exception to the caller; but the cited `sisense_trigger_build.trigger_build`
calls `resp.raise_for_status()` with no `try`, so at the concrete input
"HTTP 500 response" it raises `HTTPError` to its caller (and a transport
exception from the POST itself propagates as well). -/
theorem C4_standalone_raises_counterexample :
    standalone_trigger_build (.resp 500 none) = .error "HTTPError"
    ∧ standalone_trigger_build .exn = .error "requests exception" :=
  ⟨rfl, rfl⟩

/-- **C4 (amended).** In the two orchestrator scripts, `trigger_build` returns
the `TriggerFailed` marker `None` on every HTTP status `>= 300` and on every
exception, raising nothing; a target whose handle is falsy is skipped by the
wait phase with no status GET, and the wait phase simply continues with the
remaining targets; when the first trigger of the sequential chain fails, the
chain stops having issued exactly that one POST, one failure notification from
`trigger_build` plus one from the chain, and no wait at all.  The standalone
`sisense_trigger_build.trigger_build`, by contrast, propagates its
`raise_for_status` / transport exceptions (see the counterexample). -/
theorem C4_amended_trigger_failure :
    (∀ code json, 300 ≤ code → trigger_build (.resp code json) = none)
    ∧ trigger_build .exn = none
    ∧ (∀ env c ps nW, waitPhase env ((c, none) :: ps) nW = waitPhase env ps nW)
    ∧ (∀ env nT nW, trigger_build (env.trigResp nT) = none →
         (batch23 env nT nW).1 =
           [Event.trig dwh_cube.id, Event.notify dwh_cube.id, Event.notify dwh_cube.id]
         ∧ countWait dwh_cube.id (batch23 env nT nW).1 = 0) := by
  refine ⟨?_, rfl, ?_, ?_⟩
  · intro code json h
    cases json <;> simp [trigger_build, h]
  · intro env c ps nW
    rfl
  · intro env nT nW h
    constructor
    · simp only [batch23, run_trigger, h]
      rfl
    · simp only [batch23, run_trigger, h]
      rfl

/-- **C4 (amended) witness**: an HTTP 500 trigger response yields `none`, and
with an environment whose first trigger POST gets HTTP 500, the sequential
chain performs no wait. -/
theorem C4_amended_trigger_failure_witness :
    (300 : Nat) ≤ 500 ∧
    trigger_build (.resp 500 none) = none ∧
    countWait dwh_cube.id
      ((batch23 ⟨fun _ => .resp 500 none, fun _ => "SUCCEEDED"⟩ 0 0).1) = 0 :=
  ⟨by decide, C4_amended_trigger_failure.1 500 none (by decide),
   (C4_amended_trigger_failure.2.2.2 ⟨fun _ => .resp 500 none, fun _ => "SUCCEEDED"⟩ 0 0
     (C4_amended_trigger_failure.1 500 none (by decide))).2⟩

/-! ### C7 (parallel batch) -/

/-- The `fast_build_ids` list that batch 1's trigger loop accumulates: each
cube paired with the result of its trigger call, in list order, with trigger
indices assigned in issue order. -/
def pairsSpec (env : Env) : List Cube → Nat → List (Cube × Option PyVal)
  | [], _ => []
  | c :: cs, nT => (c, trigger_build (env.trigResp nT)) :: pairsSpec env cs (nT + 1)

/-- The trigger loop emits exactly one trigger event per cube, in list order,
and no wait events; its accumulated pair list is `pairsSpec`. -/
theorem trigPhase_spec (env : Env) :
    ∀ (cs : List Cube) (nT : Nat),
      trigIds (trigPhase env cs nT).1 = cs.map Cube.id
      ∧ waitCubeIds (trigPhase env cs nT).1 = []
      ∧ (trigPhase env cs nT).2.1 = pairsSpec env cs nT := by
  intro cs
  induction cs with
  | nil => intro nT; exact ⟨rfl, rfl, rfl⟩
  | cons c cs ih =>
    intro nT
    obtain ⟨ih1, ih2, ih3⟩ := ih (nT + 1)
    cases h : trigger_build (env.trigResp nT) with
    | none =>
      refine ⟨?_, ?_, ?_⟩ <;>
        simp [trigPhase, run_trigger, h, ih1, ih2, ih3, pairsSpec]
    | some v =>
      refine ⟨?_, ?_, ?_⟩ <;>
        simp [trigPhase, run_trigger, h, ih1, ih2, ih3, pairsSpec]

/-- The wait loop waits exactly on the truthy handles, one at a time, in
pair-list (= trigger) order, and issues no trigger. -/
theorem waitPhase_spec (env : Env) :
    ∀ (ps : List (Cube × Option PyVal)) (nW : Nat),
      waitCubeIds (waitPhase env ps nW).1 =
        (ps.filter (fun p => truthyOpt p.2)).map (fun p => p.1.id)
      ∧ trigIds (waitPhase env ps nW).1 = [] := by
  intro ps
  induction ps with
  | nil => intro nW; exact ⟨rfl, rfl⟩
  | cons p ps ih =>
    intro nW
    obtain ⟨c, bid⟩ := p
    cases bid with
    | none =>
      simpa [waitPhase, truthyOpt, List.filter] using ih nW
    | some v =>
      by_cases hv : v.truthy = true
      · obtain ⟨ih1, ih2⟩ := ih (nW + 1)
        by_cases hs : env.waitRes nW ∈ SUCCESS_STATUSES <;>
          simp [waitPhase, run_wait, hv, hs, truthyOpt, List.filter_cons, ih1, ih2]
      · simpa [waitPhase, hv, truthyOpt, List.filter_cons] using ih nW

/-- **C7.** In Batch 1 of `sisense_build_chain.__main__`, all trigger POSTs
for the fast cubes are issued first, sequentially in list order (the trigger
loop emits exactly the eleven triggers in order and performs no wait), and
only then are waits performed, one at a time, exactly on the targets whose
trigger produced a truthy handle, in trigger order; a target whose trigger
failed is skipped with no status GET ever issued for it and the loop simply
proceeds with the remaining targets, and a target with a truthy handle is
always waited on — one target's failure never blocks another's trigger or
wait. -/
theorem C7_parallel_batch :
    ∀ env nT nW,
      (batch1 env nT nW).1 =
        (trigPhase env FAST_CUBES nT).1
          ++ (waitPhase env (pairsSpec env FAST_CUBES nT) nW).1
      ∧ trigIds (trigPhase env FAST_CUBES nT).1 = FAST_CUBES.map Cube.id
      ∧ waitCubeIds (trigPhase env FAST_CUBES nT).1 = []
      ∧ trigIds (waitPhase env (pairsSpec env FAST_CUBES nT) nW).1 = []
      ∧ trigIds (batch1 env nT nW).1 = FAST_CUBES.map Cube.id
      ∧ waitCubeIds (batch1 env nT nW).1 =
          ((pairsSpec env FAST_CUBES nT).filter (fun p => truthyOpt p.2)).map
            (fun p => p.1.id)
      ∧ (∀ c ps nW2, waitPhase env ((c, none) :: ps) nW2 = waitPhase env ps nW2)
      ∧ (∀ c v ps nW2, v.truthy = true →
           (waitPhase env ((c, some v) :: ps) nW2).1 =
             Event.waited c.id v.render ::
               ((if env.waitRes nW2 ∈ SUCCESS_STATUSES then [] else [Event.notify c.id])
                 ++ (waitPhase env ps (nW2 + 1)).1)) := by
  intro env nT nW
  obtain ⟨t1, t2, t3⟩ := trigPhase_spec env FAST_CUBES nT
  obtain ⟨w1, w2⟩ := waitPhase_spec env (pairsSpec env FAST_CUBES nT) nW
  refine ⟨?_, t1, t2, w2, ?_, ?_, fun c ps nW2 => rfl, ?_⟩
  · simp only [batch1, t3]
  · simp only [batch1, t3, trigIds_append, t1, w2, List.append_nil]
  · simp only [batch1, t3, waitCubeIds_append, t2, w1, List.nil_append]
  · intro c v ps nW2 hv
    simp [waitPhase, run_wait, hv]

/-- **C7 witness**: in an environment whose third trigger POST (index 2)
fails with HTTP 500 and all others succeed with handle `"b"`, batch 1 waits
exactly on the ten other cubes, in order — the failed cube `EQ BID[3,14]` is
absent from the wait sequence. -/
theorem C7_parallel_batch_witness :
    waitCubeIds
        ((batch1 ⟨fun n => if n = 2 then .resp 500 none
                           else .resp 201 (some [("id", .pyStr "b")]),
                  fun _ => "SUCCEEDED"⟩ 0 0).1) =
      ((FAST_CUBES.map Cube.id).take 2 ++ (FAST_CUBES.map Cube.id).drop 3)
    ∧ (PyVal.pyStr "b").truthy = true
    ∧ (waitPhase ⟨fun n => if n = 2 then .resp 500 none
                           else .resp 201 (some [("id", .pyStr "b")]),
                  fun _ => "SUCCEEDED"⟩
         [(FINAL_CUBE, some (.pyStr "b"))] 5).1 =
        [Event.waited FINAL_CUBE.id "b"] := by
  refine ⟨?_, by decide, ?_⟩
  · rw [(C7_parallel_batch ⟨fun n => if n = 2 then .resp 500 none
        else .resp 201 (some [("id", .pyStr "b")]), fun _ => "SUCCEEDED"⟩ 0 0).2.2.2.2.2.1]
    decide
  · rw [(C7_parallel_batch ⟨fun n => if n = 2 then .resp 500 none
        else .resp 201 (some [("id", .pyStr "b")]), fun _ => "SUCCEEDED"⟩ 0 0).2.2.2.2.2.2.2
        FINAL_CUBE (.pyStr "b") [] 5 (by decide)]
    decide

/-! ### Commpeak loop helper lemmas -/

/-- The bounded loop only ever triggers `CUBE1` and `CUBE2`. -/
theorem commpeakLoop_trigIds_subset (env : Env) :
    ∀ fuel nT nW succ i, i ∈ trigIds (commpeakLoop env fuel nT nW succ).1 →
      i = CUBE1.id ∨ i = CUBE2.id := by
  intro fuel
  induction fuel with
  | zero =>
    intro nT nW succ i h
    simp [commpeakLoop] at h
  | succ fuel ih =>
    intro nT nW succ i h
    simp only [commpeakLoop, run_trigger, run_wait] at h
    rcases h1 : trigger_build (env.trigResp nT) with _ | v <;> rw [h1] at h
    · simp at h
      exact Or.inl h
    · dsimp only at h
      by_cases hv : v.truthy = true
      · rw [if_pos hv] at h
        by_cases hs1 : env.waitRes nW ∈ SUCCESS_STATUSES
        · rw [if_pos hs1] at h
          rcases h2 : trigger_build (env.trigResp (nT + 1)) with _ | w <;> rw [h2] at h
          · simp at h
            tauto
          · dsimp only at h
            by_cases hw : w.truthy = true
            · rw [if_pos hw] at h
              by_cases hs2 : env.waitRes (nW + 1) ∈ SUCCESS_STATUSES
              · rw [if_pos hs2] at h
                simp at h
                rcases h with h | h | h
                · exact Or.inl h
                · exact Or.inr h
                · exact ih (nT + 2) (nW + 2) (succ + 1) i h
              · rw [if_neg hs2] at h
                simp at h
                tauto
            · rw [if_neg hw] at h
              simp at h
              tauto
        · rw [if_neg hs1] at h
          simp at h
          tauto
      · rw [if_neg hv] at h
        simp at h
        exact Or.inl h

/-- A finalization step triggers its cube exactly once, whatever happens. -/
theorem finalStep_trigIds (env : Env) (c : Cube) (nT nW : Nat) :
    trigIds (finalStep env c nT nW).1 = [c.id] := by
  simp only [finalStep, run_trigger, run_wait]
  rcases h1 : trigger_build (env.trigResp nT) with _ | v
  · simp
  · by_cases hv : v.truthy = true
    · by_cases hs : env.waitRes nW ∈ SUCCESS_STATUSES <;> simp [hv, hs]
    · simp [hv]

/-- After the bounded loop — however it ended — `CUBE3` and then `CUBE4` are
each triggered exactly once. -/
theorem commpeak_finalizers (env : Env) (maxLoops : Nat) :
    finalizationTrigs (commpeakMain env maxLoops).1 = [CUBE3.id, CUBE4.id] := by
  rcases hL : commpeakLoop env maxLoops 0 0 0 with ⟨evs, nT, nW, succ, st⟩
  rcases h3 : finalStep env CUBE3 nT nW with ⟨e3, nT3, nW3⟩
  rcases h4 : finalStep env CUBE4 nT3 nW3 with ⟨e4, nT4, nW4⟩
  have hevs : finalizationTrigs evs = [] := by
    simp only [finalizationTrigs]
    rw [List.filter_eq_nil_iff]
    intro i hi
    have := commpeakLoop_trigIds_subset env maxLoops 0 0 0 i (by rw [hL]; exact hi)
    rcases this with h | h <;> subst h <;> decide
  have he3 : finalizationTrigs e3 = [CUBE3.id] := by
    have := finalStep_trigIds env CUBE3 nT nW
    rw [h3] at this
    simp only [finalizationTrigs, this]
    decide
  have he4 : finalizationTrigs e4 = [CUBE4.id] := by
    have := finalStep_trigIds env CUBE4 nT3 nW3
    rw [h4] at this
    simp only [finalizationTrigs, this]
    decide
  simp only [commpeakMain, hL, h3, h4]
  rw [finalizationTrigs_append, finalizationTrigs_append, hevs, he3, he4]
  rfl

/-! ### C5 (sequential chain with short circuit) -/

/-- A fixed environment in which every trigger succeeds with handle `"bld"`
and every wait returns `"FAILED"` (used by witnesses). -/
def envB : Env := ⟨fun _ => .resp 201 (some [("id", .pyStr "bld")]), fun _ => "FAILED"⟩

/-- **C5.** In the sequential short-circuit chain of
`sisense_build_chain.__main__` (`dwh_cube` → `mod_cube` → `FINAL_CUBE`), the
second target is triggered exactly when the first target's trigger produced a
truthy handle and its wait outcome is in `SUCCESS_STATUSES`, and the third
exactly when the first two both succeeded — so any non-success outcome
(including a failed trigger) means no later chain target is ever triggered —
and the failure is reported by a Telegram notification.  The same
short-circuit governs the Cube1→Cube2 sub-chain of the Commpeak loop (a
failed Cube1 wait means Cube2 is never triggered and is reported), while the
finalization targets outside that chain (`CUBE3`, then `CUBE4`) still run,
exactly once each. -/
theorem C5_sequential_short_circuit :
    (∀ env nT nW,
       countTrig mod_cube.id (batch23 env nT nW).1 =
         (if truthyOpt (trigger_build (env.trigResp nT)) = true then
            if env.waitRes nW ∈ SUCCESS_STATUSES then 1 else 0
          else 0)
       ∧ countTrig FINAL_CUBE.id (batch23 env nT nW).1 =
         (if truthyOpt (trigger_build (env.trigResp nT)) = true
             ∧ env.waitRes nW ∈ SUCCESS_STATUSES
             ∧ truthyOpt (trigger_build (env.trigResp (nT + 1))) = true
             ∧ env.waitRes (nW + 1) ∈ SUCCESS_STATUSES then 1 else 0)
       ∧ (truthyOpt (trigger_build (env.trigResp nT)) = false →
            Event.notify dwh_cube.id ∈ (batch23 env nT nW).1)
       ∧ (truthyOpt (trigger_build (env.trigResp nT)) = true →
            env.waitRes nW ∉ SUCCESS_STATUSES →
            Event.notify dwh_cube.id ∈ (batch23 env nT nW).1))
    ∧ (∀ env fuel nT nW succ,
         truthyOpt (trigger_build (env.trigResp nT)) = true →
         env.waitRes nW ∉ SUCCESS_STATUSES →
         countTrig CUBE2.id (commpeakLoop env (fuel + 1) nT nW succ).1 = 0
         ∧ Event.notify CUBE1.id ∈ (commpeakLoop env (fuel + 1) nT nW succ).1)
    ∧ (∀ env maxLoops,
         finalizationTrigs (commpeakMain env maxLoops).1 = [CUBE3.id, CUBE4.id]) := by
  have e1 : (dwh_cube.id == mod_cube.id) = false := by decide
  have e2 : (dwh_cube.id == FINAL_CUBE.id) = false := by decide
  have e3 : (mod_cube.id == mod_cube.id) = true := by decide
  have e4 : (mod_cube.id == FINAL_CUBE.id) = false := by decide
  have e5 : (FINAL_CUBE.id == mod_cube.id) = false := by decide
  have e6 : (FINAL_CUBE.id == FINAL_CUBE.id) = true := by decide
  have e7 : (CUBE1.id == CUBE2.id) = false := by decide
  refine ⟨?_, ?_, commpeak_finalizers⟩
  · intro env nT nW
    simp only [batch23, run_trigger, run_wait]
    rcases h1 : trigger_build (env.trigResp nT) with _ | v
    · refine ⟨?_, ?_, ?_, ?_⟩ <;> simp [truthyOpt, e1, e2]
    · dsimp only
      by_cases hv : v.truthy = true
      · rw [if_pos hv]
        by_cases hs1 : env.waitRes nW ∈ SUCCESS_STATUSES
        · rw [if_pos hs1]
          rcases h2 : trigger_build (env.trigResp (nT + 1)) with _ | w
          · refine ⟨?_, ?_, ?_, ?_⟩ <;>
              simp [truthyOpt, hv, hs1, e1, e2, e3, e4]
          · dsimp only
            by_cases hw : w.truthy = true
            · rw [if_pos hw]
              by_cases hs2 : env.waitRes (nW + 1) ∈ SUCCESS_STATUSES
              · rw [if_pos hs2]
                rcases h3 : trigger_build (env.trigResp (nT + 2)) with _ | u
                · refine ⟨?_, ?_, ?_, ?_⟩ <;>
                    simp [truthyOpt, hv, hs1, hw, hs2, e1, e2, e3, e4, e5, e6]
                · dsimp only
                  by_cases hu : u.truthy = true
                  · rw [if_pos hu]
                    by_cases hs3 : env.waitRes (nW + 2) ∈ SUCCESS_STATUSES
                    · rw [if_pos hs3]
                      refine ⟨?_, ?_, ?_, ?_⟩ <;>
                        simp [truthyOpt, hv, hs1, hw, hs2, e1, e2, e3, e4, e5, e6]
                    · rw [if_neg hs3]
                      refine ⟨?_, ?_, ?_, ?_⟩ <;>
                        simp [truthyOpt, hv, hs1, hw, hs2, e1, e2, e3, e4, e5, e6]
                  · rw [if_neg hu]
                    refine ⟨?_, ?_, ?_, ?_⟩ <;>
                      simp [truthyOpt, hv, hs1, hw, hs2, e1, e2, e3, e4, e5, e6]
              · rw [if_neg hs2]
                refine ⟨?_, ?_, ?_, ?_⟩ <;>
                  simp [truthyOpt, hv, hs1, hw, hs2, e1, e2, e3, e4, e5, e6]
            · rw [if_neg hw]
              refine ⟨?_, ?_, ?_, ?_⟩ <;>
                simp [truthyOpt, hv, hs1, hw, e1, e2, e3, e4]
        · rw [if_neg hs1]
          refine ⟨?_, ?_, ?_, ?_⟩ <;> simp [truthyOpt, hv, hs1, e1, e2]
      · rw [if_neg hv]
        refine ⟨?_, ?_, ?_, ?_⟩ <;> simp [truthyOpt, hv, e1, e2]
  · intro env fuel nT nW succ htr hws
    simp only [commpeakLoop, run_trigger, run_wait]
    rcases h1 : trigger_build (env.trigResp nT) with _ | v
    · rw [h1] at htr
      simp [truthyOpt] at htr
    · rw [h1] at htr
      have hv : v.truthy = true := by simpa [truthyOpt] using htr
      dsimp only
      rw [if_pos hv, if_neg hws]
      exact ⟨by simp [e7], by simp⟩

/-- **C5 witness**: with every trigger succeeding and every wait returning
`"FAILED"`, the chain never triggers `mod_cube` and reports the `dwh_cube`
failure. -/
theorem C5_sequential_short_circuit_witness :
    truthyOpt (trigger_build (envB.trigResp 0)) = true ∧
    ("FAILED" ∉ SUCCESS_STATUSES) ∧
    countTrig mod_cube.id (batch23 envB 0 0).1 = 0 ∧
    Event.notify dwh_cube.id ∈ (batch23 envB 0 0).1 := by
  refine ⟨by decide, by decide, ?_, ?_⟩
  · rw [(C5_sequential_short_circuit.1 envB 0 0).1]
    decide
  · exact (C5_sequential_short_circuit.1 envB 0 0).2.2.2 (by decide) (by decide)

/-! ### C6 (bounded-iteration accumulation loop) -/

/-- A fixed environment in which every trigger succeeds, the first wait (the
first Cube1 wait) returns `"SUCCEEDED"`, and every later wait returns
`"FAILED"` (the spec's "A always succeeds, B always fails" scenario). -/
def envAB : Env :=
  ⟨fun _ => .resp 201 (some [("id", .pyStr "bld")]),
   fun n => if n = 0 then "SUCCEEDED" else "FAILED"⟩

/-- **C6.** The Commpeak loop runs at most `maxLoops` (`MAX_LOOPS_PER_RUN`)
iterations — at most that many Cube1 triggers are ever issued; a trigger
failure or non-success outcome at either step stops further iterations
immediately (when the first iteration fails at the Cube2 step, exactly one
Cube1 trigger was issued however much budget was left, and the counter is
unchanged); `successful_c2_runs` counts exactly the fully-succeeded
iterations: it equals the number of iterations entered, minus one exactly
when the loop stopped early (so it is 0 whenever Cube2 always fails); and
after the loop — however it ended — `CUBE3` and then `CUBE4` are each
triggered exactly once. -/
theorem C6_bounded_loop :
    (∀ env fuel nT nW succ,
       countTrig CUBE1.id (commpeakLoop env fuel nT nW succ).1 ≤ fuel)
    ∧ (∀ env fuel nT nW succ evs nT2 nW2 succ2 stopped,
         commpeakLoop env fuel nT nW succ = (evs, nT2, nW2, succ2, stopped) →
         succ2 + (if stopped then 1 else 0) = succ + countTrig CUBE1.id evs)
    ∧ (∀ env fuel nT nW succ,
         truthyOpt (trigger_build (env.trigResp nT)) = true →
         env.waitRes nW ∈ SUCCESS_STATUSES →
         truthyOpt (trigger_build (env.trigResp (nT + 1))) = true →
         env.waitRes (nW + 1) ∉ SUCCESS_STATUSES →
         countTrig CUBE1.id (commpeakLoop env (fuel + 1) nT nW succ).1 = 1
         ∧ (commpeakLoop env (fuel + 1) nT nW succ).2.2.2.1 = succ)
    ∧ (∀ env maxLoops,
         finalizationTrigs (commpeakMain env maxLoops).1 = [CUBE3.id, CUBE4.id]) := by
  have e9 : (CUBE1.id == CUBE1.id) = true := by decide
  have e8 : (CUBE2.id == CUBE1.id) = false := by decide
  refine ⟨?_, ?_, ?_, commpeak_finalizers⟩
  · intro env fuel
    induction fuel with
    | zero => intro nT nW succ; simp [commpeakLoop]
    | succ fuel ih =>
      intro nT nW succ
      simp only [commpeakLoop, run_trigger, run_wait]
      rcases h1 : trigger_build (env.trigResp nT) with _ | v
      · simp [e9]
      · dsimp only
        by_cases hv : v.truthy = true
        · rw [if_pos hv]
          by_cases hs1 : env.waitRes nW ∈ SUCCESS_STATUSES
          · rw [if_pos hs1]
            rcases h2 : trigger_build (env.trigResp (nT + 1)) with _ | w
            · simp [e9, e8]
            · dsimp only
              by_cases hw : w.truthy = true
              · rw [if_pos hw]
                by_cases hs2 : env.waitRes (nW + 1) ∈ SUCCESS_STATUSES
                · rw [if_pos hs2]
                  have hle := ih (nT + 2) (nW + 2) (succ + 1)
                  simp [e9, e8]
                  omega
                · rw [if_neg hs2]
                  simp [e9, e8]
              · rw [if_neg hw]
                simp [e9, e8]
          · rw [if_neg hs1]
            simp [e9]
        · rw [if_neg hv]
          simp [e9]
  · intro env fuel
    induction fuel with
    | zero =>
      intro nT nW succ evs nT2 nW2 succ2 stopped h
      simp only [commpeakLoop, Prod.mk.injEq] at h
      obtain ⟨hevs, -, -, h4, h5⟩ := h
      rw [← hevs, ← h4, ← h5]
      simp
    | succ fuel ih =>
      intro nT nW succ evs nT2 nW2 succ2 stopped h
      simp only [commpeakLoop, run_trigger, run_wait] at h
      rcases h1 : trigger_build (env.trigResp nT) with _ | v <;> rw [h1] at h
      · simp only [Prod.mk.injEq] at h
        obtain ⟨hevs, -, -, h4, h5⟩ := h
        rw [← hevs, ← h4, ← h5]
        simp [e9]
      · dsimp only at h
        by_cases hv : v.truthy = true
        · rw [if_pos hv] at h
          by_cases hs1 : env.waitRes nW ∈ SUCCESS_STATUSES
          · rw [if_pos hs1] at h
            rcases h2 : trigger_build (env.trigResp (nT + 1)) with _ | w <;> rw [h2] at h
            · simp only [Prod.mk.injEq] at h
              obtain ⟨hevs, -, -, h4, h5⟩ := h
              rw [← hevs, ← h4, ← h5]
              simp [e9, e8]
            · dsimp only at h
              by_cases hw : w.truthy = true
              · rw [if_pos hw] at h
                by_cases hs2 : env.waitRes (nW + 1) ∈ SUCCESS_STATUSES
                · rw [if_pos hs2] at h
                  rcases hrec : commpeakLoop env fuel (nT + 2) (nW + 2) (succ + 1)
                    with ⟨revs, rnT, rnW, rsucc, rst⟩
                  rw [hrec] at h
                  have hihr := ih (nT + 2) (nW + 2) (succ + 1) revs rnT rnW rsucc rst hrec
                  simp only [Prod.mk.injEq] at h
                  obtain ⟨hevs, -, -, h4, h5⟩ := h
                  rw [← hevs, ← h4, ← h5]
                  simp only [countTrig_append, countTrig_cons_trig,
                    countTrig_cons_waited, countTrig_nil, e9, e8]
                  cases rst <;> simp at hihr ⊢ <;> omega
                · rw [if_neg hs2] at h
                  simp only [Prod.mk.injEq] at h
                  obtain ⟨hevs, -, -, h4, h5⟩ := h
                  rw [← hevs, ← h4, ← h5]
                  simp [e9, e8]
              · rw [if_neg hw] at h
                simp only [Prod.mk.injEq] at h
                obtain ⟨hevs, -, -, h4, h5⟩ := h
                rw [← hevs, ← h4, ← h5]
                simp [e9, e8]
          · rw [if_neg hs1] at h
            simp only [Prod.mk.injEq] at h
            obtain ⟨hevs, -, -, h4, h5⟩ := h
            rw [← hevs, ← h4, ← h5]
            simp [e9]
        · rw [if_neg hv] at h
          simp only [Prod.mk.injEq] at h
          obtain ⟨hevs, -, -, h4, h5⟩ := h
          rw [← hevs, ← h4, ← h5]
          simp [e9]
  · intro env fuel nT nW succ htr hs1 htr2 hws2
    simp only [commpeakLoop, run_trigger, run_wait]
    rcases h1 : trigger_build (env.trigResp nT) with _ | v
    · rw [h1] at htr; simp [truthyOpt] at htr
    · rw [h1] at htr
      have hv : v.truthy = true := by simpa [truthyOpt] using htr
      dsimp only
      rw [if_pos hv, if_pos hs1]
      rcases h2 : trigger_build (env.trigResp (nT + 1)) with _ | w
      · rw [h2] at htr2; simp [truthyOpt] at htr2
      · rw [h2] at htr2
        have hw : w.truthy = true := by simpa [truthyOpt] using htr2
        dsimp only
        rw [if_pos hw, if_neg hws2]
        exact ⟨by simp [e9, e8], rfl⟩

/-- **C6 witness**: with `MAX_LOOPS_PER_RUN = 3`, every trigger succeeding,
the first (Cube1) wait succeeding and every later wait failing, the loop stops
after its first iteration (one Cube1 trigger, within the bound of 3), the
count of fully-succeeded iterations is 0, and the finalization cubes are still
triggered exactly once each, in order. -/
theorem C6_bounded_loop_witness :
    truthyOpt (trigger_build (envAB.trigResp 0)) = true ∧
    envAB.waitRes 0 ∈ SUCCESS_STATUSES ∧
    envAB.waitRes 1 ∉ SUCCESS_STATUSES ∧
    countTrig CUBE1.id (commpeakLoop envAB 3 0 0 0).1 = 1 ∧
    (commpeakMain envAB 3).2 = 0 ∧
    finalizationTrigs (commpeakMain envAB 3).1 = [CUBE3.id, CUBE4.id] := by
  refine ⟨by decide, by decide, by decide, ?_, ?_, C6_bounded_loop.2.2.2 envAB 3⟩
  · exact (C6_bounded_loop.2.2.1 envAB 2 0 0 0 (by decide) (by decide)
      (by decide) (by decide)).1
  · have h := (C6_bounded_loop.2.2.1 envAB 2 0 0 0 (by decide) (by decide)
      (by decide) (by decide)).2
    rcases hL : commpeakLoop envAB 3 0 0 0 with ⟨evs, nT, nW, succ, st⟩
    have hsucc : succ = 0 := by
      rw [hL] at h
      exact h
    simp only [commpeakMain, hL]
    rcases h3 : finalStep envAB CUBE3 nT nW with ⟨e3, nT3, nW3⟩
    rcases h4 : finalStep envAB CUBE4 nT3 nW3 with ⟨e4, nT4, nW4⟩
    simpa using hsucc

end Sisense
